import Mathlib

/-!
Shallow embedding of the Moodboard3D component
(src/src/renderer/src/components/Moodboard3D.jsx).

The file models the interaction state owned by the root component
(zoom level, pan offset, target camera position, drag state, scroll
progress, canvas error), the event handlers attached to it, the local
state of one image plane (hovered / clicked / imageError) with its
render output, the per-frame camera easing of `CameraControls`, and the
per-frame scale easing of `ImagePlane`.  Numbers are modelled as exact
rationals.  The earlier draft appended to the same file (its
`handleWheel` and `CameraControls`) is embedded separately with a
`Draft` suffix.
-/

namespace Moodboard

/-- A 2D point or vector (mouse coordinates, pan offset). -/
structure Vec2 where
  x : ℚ
  y : ℚ
  deriving DecidableEq, Repr

/-- A 3D vector (camera / target positions, scales). -/
structure Vec3 where
  x : ℚ
  y : ℚ
  z : ℚ
  deriving DecidableEq, Repr

/-- Source line 57: `const lerp = (start, end, factor) => start + (end - start) * factor`. -/
def lerp (start fin factor : ℚ) : ℚ := start + (fin - start) * factor

/-- Keyboard keys distinguished by the `switch` in `handleKeyDown`
(source lines 309-336); `other` stands for every other key. -/
inductive Key where
  | arrowUp | arrowDown | arrowLeft | arrowRight
  | keyW | keyA | keyS | keyD
  | space
  | other
  deriving DecidableEq, Repr

/-- The interaction state owned by the root `Moodboard3D` component
(source lines 229-236): `zoomLevel`, `panOffset`, `targetPosition`,
`scrollProgress`, `isDragging`, `dragStart`, `canvasError`. -/
structure RootState where
  zoomLevel : ℚ
  panOffset : Vec2
  targetPosition : Vec3
  scrollProgress : ℚ
  isDragging : Bool
  dragStart : Vec2
  canvasError : Option String
  deriving DecidableEq, Repr

/-- Initial state of the root component: `useState(1)`, `useState({x:0,y:0})`,
`useState([0,0,35])`, `useState(0)`, `useState(false)`, `useState({x:0,y:0})`,
`useState(null)` (source lines 229-236). -/
def initialState : RootState :=
  { zoomLevel := 1
    panOffset := ⟨0, 0⟩
    targetPosition := ⟨0, 0, 35⟩
    scrollProgress := 0
    isDragging := false
    dragStart := ⟨0, 0⟩
    canvasError := none }

/-- Source lines 274-282 (`handleWheel`): prevents the default action and sets
`zoomLevel` to `Math.max(0.3, Math.min(prevZoom - deltaY * 0.002, 8))`.
The returned Bool records whether `event.preventDefault()` was called. -/
def handleWheel (s : RootState) (deltaY : ℚ) : RootState × Bool :=
  ({ s with zoomLevel := max 0.3 (min (s.zoomLevel - deltaY * 0.002) 8) }, true)

/-- Source lines 285-288 (`handleMouseDown`): sets `isDragging` and records
the drag origin `{x: event.clientX, y: event.clientY}`. -/
def handleMouseDown (s : RootState) (p : Vec2) : RootState :=
  { s with isDragging := true, dragStart := p }

/-- Source lines 290-300 (`handleMouseMove`): if not dragging, no effect;
otherwise sets `panOffset` to `{x: deltaX * 0.05, y: -deltaY * 0.05}` where
the deltas are measured from `dragStart`, which is not updated. -/
def handleMouseMove (s : RootState) (q : Vec2) : RootState :=
  if s.isDragging then
    { s with panOffset := ⟨(q.x - s.dragStart.x) * 0.05, -((q.y - s.dragStart.y)) * 0.05⟩ }
  else s

/-- Source lines 302-306 (`handleMouseUp`): clears `isDragging` and resets
`panOffset` to `{x: 0, y: 0}`. -/
def handleMouseUp (s : RootState) : RootState :=
  { s with isDragging := false, panOffset := ⟨0, 0⟩ }

/-- Source lines 309-336 (`handleKeyDown`): arrows / WASD translate
`targetPosition` by `moveSpeed = 2` on the matching axis; space calls
`event.preventDefault()` and resets `targetPosition` to `[0, 0, 35]` and
`zoomLevel` to `1`; every other key does nothing.  The returned Bool
records whether `event.preventDefault()` was called. -/
def handleKeyDown (s : RootState) (k : Key) : RootState × Bool :=
  match k with
  | Key.arrowUp | Key.keyW =>
      ({ s with targetPosition :=
          ⟨s.targetPosition.x, s.targetPosition.y + 2, s.targetPosition.z⟩ }, false)
  | Key.arrowDown | Key.keyS =>
      ({ s with targetPosition :=
          ⟨s.targetPosition.x, s.targetPosition.y - 2, s.targetPosition.z⟩ }, false)
  | Key.arrowLeft | Key.keyA =>
      ({ s with targetPosition :=
          ⟨s.targetPosition.x - 2, s.targetPosition.y, s.targetPosition.z⟩ }, false)
  | Key.arrowRight | Key.keyD =>
      ({ s with targetPosition :=
          ⟨s.targetPosition.x + 2, s.targetPosition.y, s.targetPosition.z⟩ }, false)
  | Key.space =>
      ({ s with targetPosition := ⟨0, 0, 35⟩, zoomLevel := 1 }, true)
  | Key.other => (s, false)

/-- Source lines 464-474: both the `Canvas onError` callback and the
`webglcontextlost` listener installed in `onCreated` call
`setCanvasError(...)` with a non-null value.  No code path ever calls
`setCanvasError(null)` after mount. -/
def setCanvasError (s : RootState) (msg : String) : RootState :=
  { s with canvasError := some msg }

/-- Source lines 362-366 (`ScrollContent` `useFrame`): republishes the scroll
framework offset into root state via `setScrollProgress(scroll.offset)`,
without any transformation. -/
def publishScroll (s : RootState) (offset : ℚ) : RootState :=
  { s with scrollProgress := offset }

/-- The input events the root component reacts to: wheel, mouse down /
move / up, keydown, a rendering-surface error (Canvas `onError` or
`webglcontextlost`), and the per-frame scroll republication. -/
inductive Event where
  | wheel (deltaY : ℚ)
  | mouseDown (p : Vec2)
  | mouseMove (p : Vec2)
  | mouseUp
  | keyDown (k : Key)
  | canvasErrorEvt (msg : String)
  | scrollFrame (offset : ℚ)
  deriving DecidableEq, Repr

/-- One step of the root component: dispatches an event to its handler. -/
def step (s : RootState) (e : Event) : RootState :=
  match e with
  | Event.wheel d => (handleWheel s d).1
  | Event.mouseDown p => handleMouseDown s p
  | Event.mouseMove p => handleMouseMove s p
  | Event.mouseUp => handleMouseUp s
  | Event.keyDown k => (handleKeyDown s k).1
  | Event.canvasErrorEvt m => setCanvasError s m
  | Event.scrollFrame o => publishScroll s o

/-- Runs a sequence of events from the initial state. -/
def run (evs : List Event) : RootState := evs.foldl step initialState

/-- What the root component renders (source lines 386-418 versus 420-527):
the persistent error view when `canvasError` is truthy, the 3D scene
otherwise. -/
inductive RootView where
  | errorView
  | sceneView
  deriving DecidableEq, Repr

/-- Source line 386: `if (canvasError) return (error view)`. -/
def renderRoot (s : RootState) : RootView :=
  if s.canvasError.isSome then RootView.errorView else RootView.sceneView

/-- Source line 213 (`ScrollIndicator`): the indicator bar height is the
style string value `scrollProgress * 100` percent. -/
def indicatorHeightPercent (scrollProgress : ℚ) : ℚ := scrollProgress * 100

/-- Earlier draft, lines 631-638: `event.preventDefault()` (line 632), then
`newZoom = prevZoom - deltaY * 0.001` clamped by
`Math.max(0.1, Math.min(newZoom, 5))`.  The returned Bool records that
`event.preventDefault()` was called. -/
def handleWheelDraft (z deltaY : ℚ) : ℚ × Bool :=
  (max 0.1 (min (z - deltaY * 0.001) 5), true)

/-- The earlier draft registers no keyboard handler, so only wheel events
touch its zoom level; a run of the draft is a fold of `handleWheelDraft`
over the wheel deltas, from the default `useState(1)` (line 608). -/
def runDraft (ds : List ℚ) : ℚ := ds.foldl (fun z d => (handleWheelDraft z d).1) 1

/-- Local state of one `ImagePlane` instance (source lines 62-64):
`hovered`, `clicked`, `imageError`, each `useState(false)`. -/
structure PlaneState where
  hovered : Bool
  clicked : Bool
  imageError : Bool
  deriving DecidableEq, Repr

/-- Initial local state of an `ImagePlane`. -/
def planeInit : PlaneState := ⟨false, false, false⟩

/-- Events an `ImagePlane` reacts to: the pointer handlers (lines 110-113
and 134-137) and the `onError` callback of the `Image` element (line 138). -/
inductive PlaneEvent where
  | pointerOver | pointerOut | pointerDown | pointerUp | imgError
  deriving DecidableEq, Repr

/-- One step of an `ImagePlane` instance: `setHovered(true/false)`,
`setClicked(true/false)`, `setImageError(true)`.  No handler ever sets
`imageError` back to false. -/
def planeStep (s : PlaneState) (e : PlaneEvent) : PlaneState :=
  match e with
  | PlaneEvent.pointerOver => { s with hovered := true }
  | PlaneEvent.pointerOut => { s with hovered := false }
  | PlaneEvent.pointerDown => { s with clicked := true }
  | PlaneEvent.pointerUp => { s with clicked := false }
  | PlaneEvent.imgError => { s with imageError := true }

/-- What one `ImagePlane` renders: either the textured `Image` element
(lines 125-140) with its url and opacity, or, when `imageError` is set,
the fallback `mesh` (lines 103-123) with a `meshBasicMaterial` whose hue
is `index * 30` and whose opacity follows hover. -/
inductive PlaneView where
  | imageView (url : String) (opacity : ℚ)
  | fallbackRect (hue : ℕ) (saturation lightness : ℕ) (opacity : ℚ)
  deriving DecidableEq, Repr

/-- Source lines 102-140: `if (imageError)` render the colored fallback
plane with `hsl(index * 30, 70%, 60%)` and opacity `hovered ? 1 : 0.8`;
otherwise render the `Image` with opacity `hovered ? 1 : 0.9`. -/
def planeRender (url : String) (index : ℕ) (s : PlaneState) : PlaneView :=
  if s.imageError then
    PlaneView.fallbackRect (index * 30) 70 60 (if s.hovered then 1 else 0.8)
  else
    PlaneView.imageView url (if s.hovered then 1 else 0.9)

/-- Source line 87: `const targetScale = hovered ? 1.1 : clicked ? 0.95 : 1`. -/
def targetScale (hovered clicked : Bool) : ℚ :=
  if hovered then 1.1 else if clicked then 0.95 else 1

/-- Source lines 87-95: per frame the mesh scale is lerped at factor 0.1
toward `(scale[0] * targetScale, scale[1] * targetScale, scale[2])`
(the z component target is the nominal `scale[2]`, unscaled). -/
def scaleFrame (cur : Vec3) (scale : Vec3) (hovered clicked : Bool) : Vec3 :=
  let t := targetScale hovered clicked
  ⟨lerp cur.x (scale.x * t) 0.1,
   lerp cur.y (scale.y * t) 0.1,
   lerp cur.z scale.z 0.1⟩

/-- The per-frame state of `CameraControls` (source lines 153-183): the
camera field of view and the internally retained running position
`currentPosition` (a ref initialised to `[0, 0, 35]`, never reset by a
prop change). -/
structure CamState where
  fov : ℚ
  pos : Vec3
  deriving DecidableEq, Repr

/-- Source lines 157-180 (`CameraControls` `useFrame`): eases `camera.fov`
toward `75 / zoomLevel` at factor 0.1, and eases each axis of the running
position independently at factor 0.1 toward `targetPosition[0] + panOffset.x`,
`targetPosition[1] + panOffset.y` and `targetPosition[2]`; the camera
position is then set from the running position. -/
def cameraFrame (cam : CamState) (zoomLevel : ℚ) (panOffset : Vec2)
    (targetPosition : Vec3) : CamState :=
  { fov := lerp cam.fov (75 / zoomLevel) 0.1
    pos := ⟨lerp cam.pos.x (targetPosition.x + panOffset.x) 0.1,
            lerp cam.pos.y (targetPosition.y + panOffset.y) 0.1,
            lerp cam.pos.z targetPosition.z 0.1⟩ }

/-- Clamping with `Math.max(lo, Math.min(u, hi))` equals the piecewise
description of a clamp to the interval from lo to hi. -/
lemma max_min_clamp_eq (lo hi u : ℚ) (h : lo ≤ hi) :
    max lo (min u hi) = if u < lo then lo else if hi < u then hi else u := by
  rcases lt_or_le u lo with h1 | h1
  · rw [if_pos h1, min_eq_left (le_trans h1.le h), max_eq_left h1.le]
  · rw [if_neg (not_lt.mpr h1)]
    rcases lt_or_le hi u with h2 | h2
    · rw [if_pos h2, min_eq_right h2.le, max_eq_right h]
    · rw [if_neg (not_lt.mpr h2), min_eq_left h2, max_eq_right h1]

/-- A single root-component event keeps the zoom level inside the clamp
range of the refined version. -/
lemma zoom_step_bounds (s : RootState) (e : Event)
    (h1 : (0.3 : ℚ) ≤ s.zoomLevel) (h2 : s.zoomLevel ≤ 8) :
    (0.3 : ℚ) ≤ (step s e).zoomLevel ∧ (step s e).zoomLevel ≤ 8 := by
  cases e with
  | wheel d =>
      refine ⟨le_max_left _ _, max_le (by norm_num) (min_le_right _ _)⟩
  | mouseDown p => exact ⟨h1, h2⟩
  | mouseMove p =>
      simp only [step, handleMouseMove]
      split <;> exact ⟨h1, h2⟩
  | mouseUp => exact ⟨h1, h2⟩
  | keyDown k => cases k <;> simp [step, handleKeyDown] <;> first | exact ⟨h1, h2⟩ | norm_num
  | canvasErrorEvt m => exact ⟨h1, h2⟩
  | scrollFrame o => exact ⟨h1, h2⟩

/-- A fold of root-component events from any in-range zoom level keeps the
zoom level in range. -/
lemma zoom_foldl_bounds (evs : List Event) (s : RootState)
    (h1 : (0.3 : ℚ) ≤ s.zoomLevel) (h2 : s.zoomLevel ≤ 8) :
    (0.3 : ℚ) ≤ (evs.foldl step s).zoomLevel ∧ (evs.foldl step s).zoomLevel ≤ 8 := by
  induction evs generalizing s with
  | nil => exact ⟨h1, h2⟩
  | cons e rest ih =>
      have h := zoom_step_bounds s e h1 h2
      exact ih (step s e) h.1 h.2

/-- One wheel event of the earlier draft lands in its clamp range. -/
lemma draft_wheel_bounds (z d : ℚ) :
    (0.1 : ℚ) ≤ (handleWheelDraft z d).1 ∧ (handleWheelDraft z d).1 ≤ 5 :=
  ⟨le_max_left _ _, max_le (by norm_num) (min_le_right _ _)⟩

/-- A fold of draft wheel deltas from an in-range zoom stays in range. -/
lemma draft_foldl_bounds (ds : List ℚ) (z : ℚ)
    (h1 : (0.1 : ℚ) ≤ z) (h2 : z ≤ 5) :
    (0.1 : ℚ) ≤ ds.foldl (fun z d => (handleWheelDraft z d).1) z ∧
      ds.foldl (fun z d => (handleWheelDraft z d).1) z ≤ 5 := by
  induction ds generalizing z with
  | nil => exact ⟨h1, h2⟩
  | cons d rest ih =>
      have h := draft_wheel_bounds z d
      exact ih (handleWheelDraft z d).1 h.1 h.2

/-- C1: after a pointer-down at P followed by a pointer-move to Q while
dragging, the pan offset is ((Qx - Px) * 0.05, -(Qy - Py) * 0.05); the drag
origin still equals P after the move (a further move to R is again measured
from P, not from Q); and a subsequent pointer-up resets the pan offset to
(0, 0) immediately. -/
theorem pan_offset_drag_spec (s : RootState) (P Q R : Vec2) :
    ((handleMouseMove (handleMouseDown s P) Q).panOffset =
      ⟨(Q.x - P.x) * 0.05, -((Q.y - P.y)) * 0.05⟩) ∧
    (handleMouseMove (handleMouseDown s P) Q).dragStart = P ∧
    ((handleMouseMove (handleMouseMove (handleMouseDown s P) Q) R).panOffset =
      ⟨(R.x - P.x) * 0.05, -((R.y - P.y)) * 0.05⟩) ∧
    (handleMouseUp (handleMouseMove (handleMouseDown s P) Q)).panOffset = ⟨0, 0⟩ := by
  simp [handleMouseDown, handleMouseMove, handleMouseUp]

/-- C2: for every sequence of wheel, mouse and keyboard events, the zoom
level stays inside the configured clamp range after every event, starting
from the default value 1: in [0.3, 8] for the refined version and, for the
earlier draft (whose only zoom-affecting events are wheel events), in
[0.1, 5]. -/
theorem zoom_always_in_range (evs : List Event) (ds : List ℚ) :
    ((0.3 : ℚ) ≤ (run evs).zoomLevel ∧ (run evs).zoomLevel ≤ 8) ∧
    ((0.1 : ℚ) ≤ runDraft ds ∧ runDraft ds ≤ 5) := by
  refine ⟨?_, ?_⟩
  · exact zoom_foldl_bounds evs initialState (by norm_num [initialState]) (by norm_num [initialState])
  · exact draft_foldl_bounds ds 1 (by norm_num) (by norm_num)

/-- C3: a wheel event with vertical delta d suppresses the default action
in both versions and sets the zoom to the previous zoom minus d * 0.002
clamped to [0.3, 8] (refined version), respectively minus d * 0.001
clamped to [0.1, 5] (earlier draft), where clamping is the piecewise
saturation at the bounds. -/
theorem wheel_zoom_formula (s : RootState) (d z : ℚ) :
    (handleWheel s d).2 = true ∧
    (handleWheelDraft z d).2 = true ∧
    (handleWheel s d).1.zoomLevel =
      (if s.zoomLevel - d * 0.002 < 0.3 then (0.3 : ℚ)
       else if 8 < s.zoomLevel - d * 0.002 then 8
       else s.zoomLevel - d * 0.002) ∧
    (handleWheelDraft z d).1 =
      (if z - d * 0.001 < 0.1 then (0.1 : ℚ)
       else if 5 < z - d * 0.001 then 5
       else z - d * 0.001) := by
  refine ⟨rfl, rfl, ?_, ?_⟩
  · simpa [handleWheel] using max_min_clamp_eq 0.3 8 (s.zoomLevel - d * 0.002) (by norm_num)
  · simpa [handleWheelDraft] using max_min_clamp_eq 0.1 5 (z - d * 0.001) (by norm_num)

/-- C4: from any prior state, a space key event sets the target camera
position to (0, 0, 35), sets the zoom level to 1, and suppresses the
default action of the key. -/
theorem space_key_resets (s : RootState) :
    (handleKeyDown s Key.space).1.targetPosition = ⟨0, 0, 35⟩ ∧
    (handleKeyDown s Key.space).1.zoomLevel = 1 ∧
    (handleKeyDown s Key.space).2 = true := by
  simp [handleKeyDown]

/-- C5: an image-load failure sets the imageError flag; once set, no plane
event ever clears it; a plane in error state renders the flat colored
fallback rectangle with hue index * 30 (saturation 70, lightness 60) and
hover-dependent opacity (1 hovered, 0.8 otherwise), so the original source
is never rendered again; pointer-over and pointer-out still drive the
hovered flag, preserving the opacity feedback. -/
theorem image_error_fallback (url : String) (idx : ℕ) (s₀ s : PlaneState)
    (e : PlaneEvent) (h : s.imageError = true) :
    (planeStep s₀ PlaneEvent.imgError).imageError = true ∧
    (planeStep s e).imageError = true ∧
    planeRender url idx s =
      PlaneView.fallbackRect (idx * 30) 70 60 (if s.hovered then 1 else 0.8) ∧
    (planeStep s PlaneEvent.pointerOver).hovered = true ∧
    (planeStep s PlaneEvent.pointerOut).hovered = false := by
  cases e <;> simp [planeStep, planeRender, h]

/-- Closed witness for C5: the hypotheses of `image_error_fallback` are
satisfiable at a concrete state with the error flag set. -/
theorem image_error_fallback_witness :
    (⟨true, false, true⟩ : PlaneState).imageError = true ∧
    ((planeStep planeInit PlaneEvent.imgError).imageError = true ∧
     (planeStep (⟨true, false, true⟩ : PlaneState) PlaneEvent.pointerUp).imageError = true ∧
     planeRender "img" 2 (⟨true, false, true⟩ : PlaneState) =
       PlaneView.fallbackRect (2 * 30) 70 60
         (if (⟨true, false, true⟩ : PlaneState).hovered then 1 else 0.8) ∧
     (planeStep (⟨true, false, true⟩ : PlaneState) PlaneEvent.pointerOver).hovered = true ∧
     (planeStep (⟨true, false, true⟩ : PlaneState) PlaneEvent.pointerOut).hovered = false) :=
  ⟨rfl, image_error_fallback "img" 2 planeInit ⟨true, false, true⟩ PlaneEvent.pointerUp rfl⟩

/-- C6: per rendered frame, the camera controller eases the field of view
toward 75 / zoomLevel at blend factor 0.1 and eases each axis of the
internally retained running position independently at blend factor 0.1
toward targetPosition.x + panOffset.x, targetPosition.y + panOffset.y and
targetPosition.z; the x axis output does not depend on the y and z
components of the target, and the update starts from the retained running
position cam.pos (it is a function of the previous running value, not of
any reset). -/
theorem camera_frame_easing (cam : CamState) (z : ℚ) (pan : Vec2) (t t' : Vec3) :
    (cameraFrame cam z pan t).fov = cam.fov + (75 / z - cam.fov) * 0.1 ∧
    (cameraFrame cam z pan t).pos.x = cam.pos.x + (t.x + pan.x - cam.pos.x) * 0.1 ∧
    (cameraFrame cam z pan t).pos.y = cam.pos.y + (t.y + pan.y - cam.pos.y) * 0.1 ∧
    (cameraFrame cam z pan t).pos.z = cam.pos.z + (t.z - cam.pos.z) * 0.1 ∧
    (cameraFrame cam z pan ⟨t.x, t'.y, t'.z⟩).pos.x = (cameraFrame cam z pan t).pos.x := by
  simp [cameraFrame, lerp]

/-- C7: the scroll progress republished to root state each frame is exactly
the scroll framework offset, so whenever that offset lies in [0, 1] the
republished progress lies in [0, 1] and the scroll indicator height lies in
[0, 100] percent. -/
theorem scroll_progress_in_unit (s : RootState) (o : ℚ)
    (h0 : 0 ≤ o) (h1 : o ≤ 1) :
    (publishScroll s o).scrollProgress = o ∧
    0 ≤ (publishScroll s o).scrollProgress ∧
    (publishScroll s o).scrollProgress ≤ 1 ∧
    0 ≤ indicatorHeightPercent (publishScroll s o).scrollProgress ∧
    indicatorHeightPercent (publishScroll s o).scrollProgress ≤ 100 := by
  refine ⟨rfl, h0, h1, ?_, ?_⟩ <;>
    simp only [publishScroll, indicatorHeightPercent] <;> nlinarith

/-- Closed witness for C7 at the concrete offset 1/2. -/
theorem scroll_progress_in_unit_witness :
    (0 ≤ (1 / 2 : ℚ) ∧ (1 / 2 : ℚ) ≤ 1) ∧
    ((publishScroll initialState (1 / 2)).scrollProgress = 1 / 2 ∧
     0 ≤ (publishScroll initialState (1 / 2)).scrollProgress ∧
     (publishScroll initialState (1 / 2)).scrollProgress ≤ 1 ∧
     0 ≤ indicatorHeightPercent (publishScroll initialState (1 / 2)).scrollProgress ∧
     indicatorHeightPercent (publishScroll initialState (1 / 2)).scrollProgress ≤ 100) :=
  ⟨⟨by norm_num, by norm_num⟩,
   scroll_progress_in_unit initialState (1 / 2) (by norm_num) (by norm_num)⟩

/-- C8: per rendered frame the displayed scale moves by linear interpolation
at blend factor 0.1 toward scale * 1.1 when hovered, scale * 0.95 when
pressed and not hovered, and the nominal scale otherwise (the z component
target is the nominal scale.z); and when the current x scale differs from
its target, one frame never snaps it exactly onto the target. -/
theorem scale_easing_smooth (cur scale : Vec3) (h c : Bool)
    (hx : cur.x ≠ scale.x * targetScale h c) :
    scaleFrame cur scale h c =
      ⟨cur.x + (scale.x * targetScale h c - cur.x) * 0.1,
       cur.y + (scale.y * targetScale h c - cur.y) * 0.1,
       cur.z + (scale.z - cur.z) * 0.1⟩ ∧
    targetScale true c = 1.1 ∧
    targetScale false true = 0.95 ∧
    targetScale false false = 1 ∧
    (scaleFrame cur scale h c).x ≠ scale.x * targetScale h c := by
  refine ⟨by simp [scaleFrame, lerp], by cases c <;> norm_num [targetScale], rfl, rfl, ?_⟩
  simp only [scaleFrame, lerp]
  intro heq
  exact hx (by linarith)

/-- Closed witness for C8: a hovered plane at current scale 1 with nominal
scale 1 has target 1.1, and the frame does not snap onto it. -/
theorem scale_easing_smooth_witness :
    ((⟨1, 1, 1⟩ : Vec3).x ≠ (⟨1, 1, 1⟩ : Vec3).x * targetScale true false) ∧
    (scaleFrame ⟨1, 1, 1⟩ ⟨1, 1, 1⟩ true false =
      ⟨(⟨1, 1, 1⟩ : Vec3).x + ((⟨1, 1, 1⟩ : Vec3).x * targetScale true false - (⟨1, 1, 1⟩ : Vec3).x) * 0.1,
       (⟨1, 1, 1⟩ : Vec3).y + ((⟨1, 1, 1⟩ : Vec3).y * targetScale true false - (⟨1, 1, 1⟩ : Vec3).y) * 0.1,
       (⟨1, 1, 1⟩ : Vec3).z + ((⟨1, 1, 1⟩ : Vec3).z - (⟨1, 1, 1⟩ : Vec3).z) * 0.1⟩ ∧
     targetScale true false = 1.1 ∧
     targetScale false true = 0.95 ∧
     targetScale false false = 1 ∧
     (scaleFrame ⟨1, 1, 1⟩ ⟨1, 1, 1⟩ true false).x ≠ (⟨1, 1, 1⟩ : Vec3).x * targetScale true false) :=
  ⟨by norm_num [targetScale],
   scale_easing_smooth ⟨1, 1, 1⟩ ⟨1, 1, 1⟩ true false (by norm_num [targetScale])⟩

/-- C9: a rendering-surface error event sets the error state; once the
error state is set, no further event of any kind clears it, and the
component renders the persistent error view; before any error the initial
state renders the normal scene, so the transition to the error view is
one-way for the lifetime of the instance. -/
theorem canvas_error_one_way (s : RootState) (e : Event) (m : String)
    (h : s.canvasError.isSome = true) :
    (setCanvasError s m).canvasError.isSome = true ∧
    (step s e).canvasError.isSome = true ∧
    renderRoot s = RootView.errorView ∧
    renderRoot initialState = RootView.sceneView := by
  refine ⟨rfl, ?_, by simp [renderRoot, h], by simp [renderRoot, initialState]⟩
  cases e with
  | wheel d => simpa [step, handleWheel] using h
  | mouseDown p => simpa [step, handleMouseDown] using h
  | mouseMove p =>
      simp only [step, handleMouseMove]
      split <;> simpa using h
  | mouseUp => simpa [step, handleMouseUp] using h
  | keyDown k => cases k <;> simpa [step, handleKeyDown] using h
  | canvasErrorEvt m2 => simp [step, setCanvasError]
  | scrollFrame o => simpa [step, publishScroll] using h

/-- Closed witness for C9: the error state reached by one context-loss
event satisfies the hypothesis, and a subsequent mouse-up keeps the error
view. -/
theorem canvas_error_one_way_witness :
    (setCanvasError initialState "WebGL context lost").canvasError.isSome = true ∧
    ((setCanvasError (setCanvasError initialState "WebGL context lost") "again").canvasError.isSome = true ∧
     (step (setCanvasError initialState "WebGL context lost") Event.mouseUp).canvasError.isSome = true ∧
     renderRoot (setCanvasError initialState "WebGL context lost") = RootView.errorView ∧
     renderRoot initialState = RootView.sceneView) :=
  ⟨rfl, canvas_error_one_way (setCanvasError initialState "WebGL context lost")
      Event.mouseUp "again" rfl⟩

/-- C10: when a plane is simultaneously hovered and pressed, the hover
state wins: the per-frame scale target factor is 1.1, not 0.95; the 0.95
reduction applies exactly when the plane is pressed and not hovered, and
the x target of the frame step reflects this. -/
theorem hover_priority_over_pressed (scale cur : Vec3) :
    targetScale true true = 1.1 ∧
    targetScale true false = 1.1 ∧
    targetScale false true = 0.95 ∧
    (scaleFrame cur scale true true).x = lerp cur.x (scale.x * 1.1) 0.1 ∧
    (scaleFrame cur scale false true).x = lerp cur.x (scale.x * 0.95) 0.1 := by
  refine ⟨rfl, rfl, rfl, ?_, ?_⟩ <;> simp [scaleFrame, targetScale]

end Moodboard
